import Mathlib

/-!
Shallow embedding of the order / payment / order-with-items teaching
scripts.  Money amounts are modelled as exact rationals (`ℚ`), JavaScript
exceptions as `Except String`, and the in-memory repositories and the
payment processor history as explicit list-valued state that each
operation threads through.
-/

/-- Order status enumeration used by every order variant. -/
inductive OrderStatus where
  | pending
  | completed
deriving DecidableEq, Repr

/-! ## Simple-variant order pipeline (index01.js and the unnamed file with
`StrictOrderValidator`, whose `Order`, `OrderValidator`, `OrderRepository`
and `OrderService` classes are textually identical). -/

/-- Order of the simple variant: a precomputed total and plain item labels. -/
structure Order1 where
  id : String
  customerName : String
  items : List String
  total : ℚ
  status : OrderStatus
deriving DecidableEq, Repr

/-- The `Order` constructor: stores the fields and starts in `pending`. -/
def Order1.new (id customerName : String) (items : List String) (total : ℚ) : Order1 :=
  { id := id, customerName := customerName, items := items, total := total
    status := .pending }

/-- Base `OrderValidator.validate`: the three checks in source order, each
throwing its message; a passing order yields `true`. -/
def validate1 (o : Order1) : Except String Bool :=
  if o.id = "" ∨ o.customerName = "" then
    .error "Order must have id and customer name"
  else if o.items = [] then
    .error "Order must have at least one item"
  else if o.total ≤ 0 then
    .error "Order total must be greater than zero"
  else
    .ok true

/-- The `StrictOrderValidator.validate` override: run the base checks via
`super.validate`, then reject totals above 10000. -/
def strictValidate (o : Order1) : Except String Bool :=
  match validate1 o with
  | .error e => .error e
  | .ok _ =>
    if o.total > 10000 then
      .error "Order total exceeds maximum allowed value"
    else
      .ok true

/-- Repository state: the `orders` array, in insertion order. -/
abbrev Repo := List Order1

/-- The `OrderRepository.save` method: push onto the array, return the order. -/
def Repo.save (repo : Repo) (o : Order1) : Order1 × Repo :=
  (o, repo ++ [o])

/-- The `OrderRepository.findById` method: first stored order with that id. -/
def Repo.findById (repo : Repo) (id : String) : Option Order1 :=
  repo.find? (fun o => o.id = id)

/-- The `OrderRepository.findAll` method: the whole array. -/
def Repo.findAll (repo : Repo) : List Order1 :=
  repo

/-- The `OrderService.createOrder` method, parametrised by the injected
validator.  It builds the order, validates (a thrown error propagates and
`save` never runs), then saves.  The pair carries the result and the
repository state after the call. -/
def createOrder (validator : Order1 → Except String Bool) (repo : Repo)
    (id customerName : String) (items : List String) (total : ℚ) :
    Except String Order1 × Repo :=
  let order := Order1.new id customerName items total
  match validator order with
  | .error e => (.error e, repo)
  | .ok _ =>
    let (saved, repo') := repo.save order
    (.ok saved, repo')

/-- The `OrderService.getOrder` method: delegate to `findById`. -/
def getOrder (repo : Repo) (id : String) : Option Order1 :=
  repo.findById id

/-- The `OrderService.getAllOrders` method: delegate to `findAll`. -/
def getAllOrders (repo : Repo) : List Order1 :=
  repo.findAll

/-! ## Order-with-items pipeline (index03.js). -/

/-- Product: id, name and unit price. -/
structure Product where
  id : String
  name : String
  price : ℚ
deriving DecidableEq, Repr

/-- Snapshot returned by `Product.getInfo`. -/
structure ProductInfo where
  id : String
  name : String
  price : ℚ
deriving DecidableEq, Repr

/-- The `Product.getInfo` method. -/
def Product.getInfo (p : Product) : ProductInfo :=
  { id := p.id, name := p.name, price := p.price }

/-- OrderItem: one product reference and a quantity. -/
structure OrderItem where
  product : Product
  quantity : ℕ
deriving DecidableEq, Repr

/-- The `OrderItem.getSubtotal` method: price × quantity, recomputed. -/
def OrderItem.getSubtotal (it : OrderItem) : ℚ :=
  it.product.price * it.quantity

/-- Snapshot returned by `OrderItem.getInfo`. -/
structure ItemInfo where
  product : ProductInfo
  quantity : ℕ
  subtotal : ℚ
deriving DecidableEq, Repr

/-- The `OrderItem.getInfo` method. -/
def OrderItem.getInfo (it : OrderItem) : ItemInfo :=
  { product := it.product.getInfo, quantity := it.quantity
    subtotal := it.getSubtotal }

/-- Order of the aggregate variant: items are OrderItems, total is derived. -/
structure Order3 where
  id : String
  customerName : String
  items : List OrderItem
  status : OrderStatus
deriving DecidableEq, Repr

/-- The aggregate `Order` constructor: empty item list, `pending` status. -/
def Order3.new (id customerName : String) : Order3 :=
  { id := id, customerName := customerName, items := [], status := .pending }

/-- The `Order.addItem` method: push a new OrderItem, return the order
(fluent chaining). -/
def Order3.addItem (o : Order3) (p : Product) (quantity : ℕ) : Order3 :=
  { o with items := o.items ++ [⟨p, quantity⟩] }

/-- The `Order.getTotal` method: `reduce` of the subtotals from 0. -/
def Order3.getTotal (o : Order3) : ℚ :=
  o.items.foldl (fun total it => total + it.getSubtotal) 0

/-- Snapshot returned by the aggregate `Order.getInfo`. -/
structure Order3Info where
  id : String
  customer : String
  items : List ItemInfo
  total : ℚ
  status : OrderStatus
deriving DecidableEq, Repr

/-- The aggregate `Order.getInfo` method. -/
def Order3.getInfo (o : Order3) : Order3Info :=
  { id := o.id, customer := o.customerName
    items := o.items.map OrderItem.getInfo
    total := o.getTotal, status := o.status }

/-- The aggregate variant's `OrderValidator.validate`: checks id, customer
name and item presence only — it never inspects the total. -/
def validate3 (o : Order3) : Except String Bool :=
  if o.id = "" ∨ o.customerName = "" then
    .error "Order must have id and customer name"
  else if o.items = [] then
    .error "Order must have at least one item"
  else
    .ok true

/-- The `DiscountCalculator.calculateDiscount` method: 10% above 500,
else 5% above 200, else nothing; both comparisons strict. -/
def calculateDiscount (o : Order3) : ℚ :=
  let total := o.getTotal
  if total > 500 then
    total * 0.1
  else if total > 200 then
    total * 0.05
  else
    0

/-- Composite result returned by `OrderService.finalizeOrder`. -/
structure FinalizeResult where
  order : Order3Info
  discount : ℚ
  total : ℚ
  finalTotal : ℚ
deriving DecidableEq, Repr

/-- The aggregate `OrderService.finalizeOrder` method: validate (an error
aborts), compute discount, total and finalTotal, set the order's status to
`completed`, and return the mutated order together with the composite
result (whose snapshot is taken after the mutation). -/
def finalizeOrder (o : Order3) : Except String (Order3 × FinalizeResult) :=
  match validate3 o with
  | .error e => .error e
  | .ok _ =>
    let discount := calculateDiscount o
    let total := o.getTotal
    let finalTotal := total - discount
    let o' := { o with status := OrderStatus.completed }
    .ok (o', { order := o'.getInfo, discount := discount, total := total
               finalTotal := finalTotal })

/-! ## Payment pipeline (the unnamed file with `PaymentProcessor`). -/

/-- Payment status enumeration. -/
inductive PayStatus where
  | pending
  | processing
  | completed
deriving DecidableEq, Repr

/-- Payment base data.  The completion timestamp is an abstract clock
reading (`Option ℕ`), `none` mirroring the initial `null`. -/
structure Payment where
  amount : ℚ
  method : String
  status : PayStatus
  processedAt : Option ℕ
deriving DecidableEq, Repr

/-- The `Payment` constructor. -/
def Payment.new (amount : ℚ) (method : String) : Payment :=
  { amount := amount, method := method, status := .pending, processedAt := none }

/-- The `Payment.process` method: set status to `processing`
unconditionally (no guard on the current status). -/
def Payment.process (p : Payment) : Payment :=
  { p with status := .processing }

/-- The `Payment.complete` method: set status to `completed` and overwrite
`processedAt` with the current clock reading, unconditionally. -/
def Payment.complete (p : Payment) (now : ℕ) : Payment :=
  { p with status := .completed, processedAt := some now }

/-- One direct method call on a payment, for reasoning about arbitrary
call sequences; `complete` carries the clock reading it observes. -/
inductive PayCall where
  | process
  | complete (now : ℕ)
deriving DecidableEq, Repr

/-- Apply one call to a payment. -/
def applyCall (p : Payment) : PayCall → Payment
  | .process => p.process
  | .complete now => p.complete now

/-- Apply a sequence of calls left to right. -/
def runCalls (p : Payment) (calls : List PayCall) : Payment :=
  calls.foldl applyCall p

/-- CreditCardPayment: the base payment plus card number and holder; the
constructor fixes the method tag to `credit_card`. -/
structure CreditCardPayment where
  payment : Payment
  cardNumber : String
  cardHolder : String
deriving DecidableEq, Repr

/-- The `CreditCardPayment` constructor. -/
def CreditCardPayment.new (amount : ℚ) (cardNumber cardHolder : String) :
    CreditCardPayment :=
  { payment := Payment.new amount "credit_card", cardNumber := cardNumber
    cardHolder := cardHolder }

/-- The `CreditCardPayment.maskCardNumber` method: `slice(-4)` keeps the
last four characters (the whole string when shorter), prefixed by the
fixed mask. -/
def CreditCardPayment.maskCardNumber (p : CreditCardPayment) : String :=
  "****-****-****-" ++ p.cardNumber.takeRight 4

/-- Snapshot returned by the base `Payment.getPaymentInfo`. -/
structure PaymentInfo where
  amount : ℚ
  method : String
  status : PayStatus
  processedAt : Option ℕ
deriving DecidableEq, Repr

/-- The base `Payment.getPaymentInfo` method. -/
def Payment.getPaymentInfo (p : Payment) : PaymentInfo :=
  { amount := p.amount, method := p.method, status := p.status
    processedAt := p.processedAt }

/-- Snapshot returned by `CreditCardPayment.getPaymentInfo`: the base info
plus holder and the masked card number. -/
structure CreditCardInfo where
  base : PaymentInfo
  cardHolder : String
  cardNumber : String
deriving DecidableEq, Repr

/-- The `CreditCardPayment.getPaymentInfo` override. -/
def CreditCardPayment.getPaymentInfo (p : CreditCardPayment) : CreditCardInfo :=
  { base := p.payment.getPaymentInfo, cardHolder := p.cardHolder
    cardNumber := p.maskCardNumber }

/-- The `PaymentProcessor.processPayment` method: drive the payment through
`process()` then `complete()` unconditionally, append it to the history,
return it.  `now` is the clock reading `complete` observes. -/
def processPayment (history : List Payment) (p : Payment) (now : ℕ) :
    Payment × List Payment :=
  let p' := (p.process).complete now
  (p', history ++ [p'])

/-- The `PaymentProcessor.getTotalProcessed` method: `reduce` of the
amounts from 0, with no status filtering. -/
def getTotalProcessed (history : List Payment) : ℚ :=
  history.foldl (fun total p => total + p.amount) 0

/-! ## Concrete objects from the demonstration routines, used to exercise
the theorems on the inputs the scripts and the spec single out. -/

/-- The first demonstration order of index01.js. -/
def validOrd1 : Order1 :=
  Order1.new "ORD-001" "João Silva" ["Produto A", "Produto B"] 150

/-- The over-the-ceiling order the strict-validator demonstration rejects. -/
def bigOrd : Order1 :=
  Order1.new "ORD-004" "Ana Lima" ["Produto E"] 15000

/-- The demonstration order of index03.js: Notebook 2500×1, Mouse 50×2,
Teclado 150×1. -/
def demoOrder : Order3 :=
  (((Order3.new "ORD-001" "João Silva").addItem ⟨"PROD-001", "Notebook", 2500⟩ 1).addItem
      ⟨"PROD-002", "Mouse", 50⟩ 2).addItem ⟨"PROD-003", "Teclado", 150⟩ 1

/-- The value `finalizeOrder` produces on `demoOrder`. -/
def demoFinal : Order3 × FinalizeResult :=
  ({ demoOrder with status := OrderStatus.completed },
   { order := Order3.getInfo { demoOrder with status := OrderStatus.completed }
     discount := calculateDiscount demoOrder
     total := demoOrder.getTotal
     finalTotal := demoOrder.getTotal - calculateDiscount demoOrder })

/-- A one-item order whose total is exactly the given price, for probing
the discount tier boundaries. -/
def tierOrder (price : ℚ) : Order3 :=
  (Order3.new "ORD-T" "Cliente").addItem ⟨"PROD-T", "Produto", price⟩ 1

/-- The demonstration credit-card payment. -/
def cardA : CreditCardPayment :=
  CreditCardPayment.new 250 "1234567890123456" "João Silva"

/-- A different credit-card payment sharing the last four digits. -/
def cardB : CreditCardPayment :=
  CreditCardPayment.new 99 "9999999999993456" "Maria Santos"

/-- The demonstration credit-card payment, base part. -/
def payA : Payment :=
  Payment.new 250 "credit_card"

/-- The demonstration PIX payment, base part. -/
def payB : Payment :=
  Payment.new 100 "pix"

/-! ## Helper lemmas shared across the verification. -/

/-- A base-valid order passes `validate1`. -/
lemma validate1_eq_ok (o : Order1) (h1 : o.id ≠ "") (h2 : o.customerName ≠ "")
    (h3 : o.items ≠ []) (h4 : 0 < o.total) : validate1 o = .ok true := by
  unfold validate1
  rw [if_neg (not_or.mpr ⟨h1, h2⟩), if_neg h3, if_neg (not_le.mpr h4)]

/-- The only boolean `validate1` ever returns is `true`. -/
lemma validate1_only_true (o : Order1) (b : Bool) (h : validate1 o = .ok b) :
    b = true := by
  unfold validate1 at h
  split_ifs at h
  simp_all

/-- Appending a fresh order makes it the `findById` result for its id. -/
lemma findById_append (repo : Repo) (o : Order1) (i : String) (hi : o.id = i)
    (h : ∀ x ∈ repo, x.id ≠ i) : Repo.findById (repo ++ [o]) i = some o := by
  induction repo with
  | nil => simp [Repo.findById, List.find?_cons, hi]
  | cons x xs ih =>
    have hx : ¬ x.id = i := h x (List.mem_cons_self x xs)
    have ih2 := ih (fun y hy => h y (List.mem_cons_of_mem x hy))
    simpa [Repo.findById, List.find?_cons, hx] using ih2

/-- Folding addition of the amounts equals the initial value plus the sum
of the mapped amounts. -/
lemma foldl_add_amount (l : List Payment) (a : ℚ) :
    l.foldl (fun total p => total + p.amount) a = a + (l.map Payment.amount).sum := by
  induction l generalizing a with
  | nil => simp
  | cons x xs ih => simp [ih]; ring

/-- The one-item probe order totals exactly its price. -/
lemma tierOrder_total (price : ℚ) : (tierOrder price).getTotal = price := by
  simp [tierOrder, Order3.getTotal, Order3.addItem, Order3.new, OrderItem.getSubtotal]

/-! ## Claim theorems. -/

/-- C1: the discount tiers are strictly greater-than: above 500 the
discount is 10% of the total, above 200 (and at most 500) it is 5%, and at
or below 200 it is 0.  At the boundaries: a total of exactly 500 is
excluded from the 10% tier but still earns the 5% discount (not 0, as the
spec sentence reads), 500.01 earns 10%, exactly 200 earns 0, and 200.01
earns 5%. -/
theorem calculateDiscount_tiers (o : Order3) :
    (o.getTotal = 500 → calculateDiscount o = o.getTotal * 0.05) ∧
    (o.getTotal = 500.01 → calculateDiscount o = o.getTotal * 0.1) ∧
    (o.getTotal = 200 → calculateDiscount o = 0) ∧
    (o.getTotal = 200.01 → calculateDiscount o = o.getTotal * 0.05) ∧
    (o.getTotal > 500 → calculateDiscount o = o.getTotal * 0.1) ∧
    (o.getTotal ≤ 500 → o.getTotal > 200 → calculateDiscount o = o.getTotal * 0.05) ∧
    (o.getTotal ≤ 200 → calculateDiscount o = 0) := by
  refine ⟨fun h => ?_, fun h => ?_, fun h => ?_, fun h => ?_, fun h => ?_,
    fun hle hgt => ?_, fun hle => ?_⟩ <;> simp only [calculateDiscount]
  · rw [h]; norm_num
  · rw [h]; norm_num
  · rw [h]; norm_num
  · rw [h]; norm_num
  · split_ifs
    rfl
  · split_ifs <;> first | rfl | linarith
  · split_ifs <;> first | rfl | linarith

/-- C1 witness: the four boundary totals, realised by one-item orders. -/
theorem calculateDiscount_tiers_witness :
    calculateDiscount (tierOrder 500) = (tierOrder 500).getTotal * 0.05 ∧
    calculateDiscount (tierOrder 500.01) = (tierOrder 500.01).getTotal * 0.1 ∧
    calculateDiscount (tierOrder 200) = 0 ∧
    calculateDiscount (tierOrder 200.01) = (tierOrder 200.01).getTotal * 0.05 :=
  ⟨(calculateDiscount_tiers _).1 (tierOrder_total 500),
   (calculateDiscount_tiers _).2.1 (tierOrder_total 500.01),
   (calculateDiscount_tiers _).2.2.1 (tierOrder_total 200),
   (calculateDiscount_tiers _).2.2.2.1 (tierOrder_total 200.01)⟩

/-- C1 counterexample: at a total of exactly 500 the computed discount is
25 (the 5% tier), not 0 as the claim's boundary sentence states. -/
theorem calculateDiscount_at_500_not_zero :
    calculateDiscount (tierOrder 500) = 25 ∧ (25 : ℚ) ≠ 0 := by
  constructor
  · simp only [calculateDiscount]
    rw [tierOrder_total]
    norm_num
  · norm_num

/-- C2: on the demonstration order (2500×1, 50×2, 150×1) `finalizeOrder`
succeeds with total 2750, discount 275 (10% tier) and finalTotal 2475
(the items sum to 2750, not the 2700 the spec example states), and in
general a successful `finalizeOrder` returns the composite result with
finalTotal = total − discount, the order snapshot taken after the status
mutation, and the order's status set to completed. -/
theorem finalizeOrder_spec :
    (∃ p, finalizeOrder demoOrder = .ok p ∧ p.2.total = 2750 ∧
      p.2.discount = 275 ∧ p.2.finalTotal = 2475 ∧
      p.1.status = OrderStatus.completed ∧ p.2.order.status = OrderStatus.completed) ∧
    (∀ (o : Order3) (p : Order3 × FinalizeResult), finalizeOrder o = .ok p →
      p.2.finalTotal = p.2.total - p.2.discount ∧ p.2.total = o.getTotal ∧
      p.2.discount = calculateDiscount o ∧ p.1 = { o with status := OrderStatus.completed } ∧
      p.2.order = p.1.getInfo) := by
  have htot : demoOrder.getTotal = 2750 := by
    norm_num [demoOrder, Order3.getTotal, Order3.addItem, Order3.new, OrderItem.getSubtotal]
  have hdisc : calculateDiscount demoOrder = 275 := by
    simp only [calculateDiscount]
    rw [htot]
    norm_num
  constructor
  · refine ⟨demoFinal, rfl, ?_, ?_, ?_, rfl, rfl⟩
    · exact htot
    · exact hdisc
    · show demoOrder.getTotal - calculateDiscount demoOrder = 2475
      rw [htot, hdisc]
      norm_num
  · intro o p h
    unfold finalizeOrder at h
    cases hv : validate3 o with
    | error e => rw [hv] at h; simp at h
    | ok b =>
      rw [hv] at h
      simp only [Except.ok.injEq] at h
      subst h
      exact ⟨rfl, rfl, rfl, rfl, rfl⟩

/-- C2 witness: the general composite-shape facts instantiated on the
demonstration order and its computed result. -/
theorem finalizeOrder_spec_witness :
    demoFinal.2.finalTotal = demoFinal.2.total - demoFinal.2.discount ∧
    demoFinal.2.total = demoOrder.getTotal ∧
    demoFinal.2.discount = calculateDiscount demoOrder ∧
    demoFinal.1 = { demoOrder with status := OrderStatus.completed } ∧
    demoFinal.2.order = demoFinal.1.getInfo :=
  finalizeOrder_spec.2 demoOrder demoFinal rfl

/-- C2 counterexample: the demonstration order's computed totals are 2750,
275 and 2475, none of which equal the 2700, 270 and 2430 the claim
states. -/
theorem finalizeOrder_demo_not_claimed_values :
    finalizeOrder demoOrder = .ok demoFinal ∧
    demoFinal.2.total = 2750 ∧ (2750 : ℚ) ≠ 2700 ∧
    demoFinal.2.discount = 275 ∧ (275 : ℚ) ≠ 270 ∧
    demoFinal.2.finalTotal = 2475 ∧ (2475 : ℚ) ≠ 2430 := by
  have htot : demoOrder.getTotal = 2750 := by
    norm_num [demoOrder, Order3.getTotal, Order3.addItem, Order3.new, OrderItem.getSubtotal]
  have hdisc : calculateDiscount demoOrder = 275 := by
    simp only [calculateDiscount]
    rw [htot]
    norm_num
  refine ⟨rfl, htot, by norm_num, hdisc, by norm_num, ?_, by norm_num⟩
  show demoOrder.getTotal - calculateDiscount demoOrder = 2475
  rw [htot, hdisc]
  norm_num

/-- C3: the simple-variant base and strict validators accept an order only
if it has a non-empty id, a non-empty customer name, at least one item and
a positive total; the order-with-items validator enforces the first three
conditions but, contrary to the claim, never checks that the total is
positive. -/
theorem validators_accept_only_valid :
    (∀ o : Order1, validate1 o = .ok true →
      o.id ≠ "" ∧ o.customerName ≠ "" ∧ o.items ≠ [] ∧ 0 < o.total) ∧
    (∀ o : Order1, strictValidate o = .ok true →
      o.id ≠ "" ∧ o.customerName ≠ "" ∧ o.items ≠ [] ∧ 0 < o.total) ∧
    (∀ o : Order3, validate3 o = .ok true →
      o.id ≠ "" ∧ o.customerName ≠ "" ∧ o.items ≠ []) := by
  have base : ∀ o : Order1, validate1 o = .ok true →
      o.id ≠ "" ∧ o.customerName ≠ "" ∧ o.items ≠ [] ∧ 0 < o.total := by
    intro o h
    unfold validate1 at h
    split_ifs at h with h1 h2 h3
    push_neg at h1
    exact ⟨h1.1, h1.2, h2, not_le.mp h3⟩
  refine ⟨base, fun o h => ?_, fun o h => ?_⟩
  · apply base
    unfold strictValidate at h
    cases hv : validate1 o with
    | error e => rw [hv] at h; simp at h
    | ok b =>
      have hb := validate1_only_true o b hv
      subst hb
      rfl
  · unfold validate3 at h
    split_ifs at h with h1 h2
    push_neg at h1
    exact ⟨h1.1, h1.2, h2⟩

/-- C3 witness: accepted concrete orders indeed satisfy the respective
conditions. -/
theorem validators_accept_only_valid_witness :
    (validOrd1.id ≠ "" ∧ validOrd1.customerName ≠ "" ∧ validOrd1.items ≠ [] ∧
      0 < validOrd1.total) ∧
    (demoOrder.id ≠ "" ∧ demoOrder.customerName ≠ "" ∧ demoOrder.items ≠ []) :=
  ⟨validators_accept_only_valid.1 validOrd1 rfl,
   validators_accept_only_valid.2.2 demoOrder rfl⟩

/-- C3 counterexample: the order-with-items validator accepts a one-item
order whose only product costs 0, whose total is therefore not positive. -/
theorem validate3_accepts_nonpositive_total :
    validate3 (tierOrder 0) = .ok true ∧ ¬ 0 < (tierOrder 0).getTotal := by
  refine ⟨rfl, ?_⟩
  rw [tierOrder_total]
  norm_num

/-- C4: driving a fresh payment through `PaymentProcessor.processPayment`
(one `process()` then one `complete()`) yields the strict lifecycle
pending → processing → completed with `processedAt` set exactly once, at
the transition into completed; the methods themselves do not guard the
transition, which is what the counterexample exhibits. -/
theorem processPayment_lifecycle (amount : ℚ) (method : String)
    (history : List Payment) (now : ℕ) :
    (Payment.new amount method).status = PayStatus.pending ∧
    ((Payment.new amount method).process).status = PayStatus.processing ∧
    (((Payment.new amount method).process).complete now).status = PayStatus.completed ∧
    (Payment.new amount method).processedAt = none ∧
    ((Payment.new amount method).process).processedAt = none ∧
    (((Payment.new amount method).process).complete now).processedAt = some now ∧
    processPayment history (Payment.new amount method) now =
      (((Payment.new amount method).process).complete now,
        history ++ [((Payment.new amount method).process).complete now]) :=
  ⟨rfl, rfl, rfl, rfl, rfl, rfl, rfl⟩

/-- C4 counterexample: the raw methods do not enforce the claimed
sequencing — a lone `complete()` jumps a pending payment straight to
completed, a `process()` after completion moves the status backward to
processing, and a second `complete()` overwrites `processedAt`. -/
theorem payment_unguarded_transitions :
    (Payment.new 100 "pix").status = PayStatus.pending ∧
    (runCalls (Payment.new 100 "pix") [PayCall.complete 0]).status = PayStatus.completed ∧
    (runCalls (Payment.new 100 "pix")
      [PayCall.process, PayCall.complete 0, PayCall.process]).status = PayStatus.processing ∧
    (runCalls (Payment.new 100 "pix") [PayCall.complete 0]).processedAt = some 0 ∧
    (runCalls (Payment.new 100 "pix")
      [PayCall.complete 0, PayCall.complete 1]).processedAt = some 1 :=
  ⟨rfl, rfl, rfl, rfl, rfl⟩

/-- C5: creating an order from valid fields through the base validator
succeeds, yields a pending order carrying exactly those fields, appends it
to the repository, and — provided the id is fresh in the repository, the
uniqueness invariant the data model requires — a subsequent `getOrder`
returns that very order. -/
theorem createOrder_getOrder_roundtrip (repo : Repo) (id name : String)
    (items : List String) (total : ℚ) (hid : id ≠ "") (hname : name ≠ "")
    (hitems : items ≠ []) (htotal : 0 < total)
    (hfresh : ∀ o ∈ repo, o.id ≠ id) :
    ∃ ord : Order1, createOrder validate1 repo id name items total = (.ok ord, repo ++ [ord]) ∧
      ord.id = id ∧ ord.customerName = name ∧ ord.items = items ∧
      ord.total = total ∧ ord.status = OrderStatus.pending ∧
      getOrder (repo ++ [ord]) id = some ord := by
  refine ⟨Order1.new id name items total, ?_, rfl, rfl, rfl, rfl, rfl, ?_⟩
  · simp only [createOrder]
    rw [validate1_eq_ok _ hid hname hitems htotal]
    rfl
  · exact findById_append repo _ id rfl hfresh

/-- C5 witness: the round trip on an empty repository with the first
demonstration order's fields. -/
theorem createOrder_getOrder_roundtrip_witness :
    ∃ ord : Order1, createOrder validate1 [] "ORD-001" "João Silva"
        ["Produto A", "Produto B"] 150 = (.ok ord, [] ++ [ord]) ∧
      ord.id = "ORD-001" ∧ ord.customerName = "João Silva" ∧
      ord.items = ["Produto A", "Produto B"] ∧ ord.total = 150 ∧
      ord.status = OrderStatus.pending ∧
      getOrder ([] ++ [ord]) "ORD-001" = some ord :=
  createOrder_getOrder_roundtrip [] "ORD-001" "João Silva"
    ["Produto A", "Produto B"] 150 (by decide) (by decide) (by decide)
    (by norm_num) (by simp)

/-- C6: the base validator fails exactly when the id is empty, the
customer name is empty, the item list is empty or the total is at most 0;
the raised message identifies the first violated rule in the priority
order identity fields → item presence → total positivity; and a valid
order yields `true`.  The embedding of `validate` is a pure function of
the order, so it cannot mutate it. -/
theorem validate1_spec (o : Order1) :
    ((∃ e, validate1 o = .error e) ↔
      (o.id = "" ∨ o.customerName = "" ∨ o.items = [] ∨ o.total ≤ 0)) ∧
    ((o.id = "" ∨ o.customerName = "") →
      validate1 o = .error "Order must have id and customer name") ∧
    (o.id ≠ "" → o.customerName ≠ "" → o.items = [] →
      validate1 o = .error "Order must have at least one item") ∧
    (o.id ≠ "" → o.customerName ≠ "" → o.items ≠ [] → o.total ≤ 0 →
      validate1 o = .error "Order total must be greater than zero") ∧
    (o.id ≠ "" → o.customerName ≠ "" → o.items ≠ [] → 0 < o.total →
      validate1 o = .ok true) := by
  have c1 : (o.id = "" ∨ o.customerName = "") →
      validate1 o = .error "Order must have id and customer name" := by
    intro h
    unfold validate1
    rw [if_pos h]
  have c2 : o.id ≠ "" → o.customerName ≠ "" → o.items = [] →
      validate1 o = .error "Order must have at least one item" := by
    intro ha hb hc
    unfold validate1
    rw [if_neg (not_or.mpr ⟨ha, hb⟩), if_pos hc]
  have c3 : o.id ≠ "" → o.customerName ≠ "" → o.items ≠ [] → o.total ≤ 0 →
      validate1 o = .error "Order total must be greater than zero" := by
    intro ha hb hc hd
    unfold validate1
    rw [if_neg (not_or.mpr ⟨ha, hb⟩), if_neg hc, if_pos hd]
  refine ⟨⟨?_, ?_⟩, c1, c2, c3, validate1_eq_ok o⟩
  · rintro ⟨e, he⟩
    by_contra hno
    push_neg at hno
    rw [validate1_eq_ok o hno.1 hno.2.1 hno.2.2.1 hno.2.2.2] at he
    cases he
  · intro h
    by_cases hA : o.id = "" ∨ o.customerName = ""
    · exact ⟨_, c1 hA⟩
    · push_neg at hA
      by_cases hB : o.items = []
      · exact ⟨_, c2 hA.1 hA.2 hB⟩
      · by_cases hC : o.total ≤ 0
        · exact ⟨_, c3 hA.1 hA.2 hB hC⟩
        · rcases h with h | h | h | h
          · exact absurd h hA.1
          · exact absurd h hA.2
          · exact absurd h hB
          · exact absurd h hC

/-- C6 witness: a valid order passes, an order with an empty id raises the
identity message, and an order with a non-positive total raises the total
message. -/
theorem validate1_spec_witness :
    validate1 validOrd1 = .ok true ∧
    validate1 (Order1.new "" "Maria Santos" ["Produto C"] 10) =
      .error "Order must have id and customer name" ∧
    validate1 (Order1.new "ORD-009" "Maria Santos" ["Produto C"] 0) =
      .error "Order total must be greater than zero" :=
  ⟨(validate1_spec validOrd1).2.2.2.2 (by decide) (by decide) (by decide)
      (by norm_num [validOrd1, Order1.new]),
   (validate1_spec _).2.1 (Or.inl rfl),
   (validate1_spec _).2.2.2.1 (by decide) (by decide) (by decide)
      (by norm_num [Order1.new])⟩

/-- C7: on any order that passes the base checks and whose total exceeds
10000, the strict validator raises the ceiling message while the base
validator still succeeds; below or at the ceiling the strict validator
coincides with the base one, and a base failure is propagated verbatim. -/
theorem strictValidate_ceiling (o : Order1) (hbase : validate1 o = .ok true)
    (hceil : o.total > 10000) :
    strictValidate o = .error "Order total exceeds maximum allowed value" ∧
    validate1 o = .ok true ∧
    (∀ o2 : Order1, o2.total ≤ 10000 → strictValidate o2 = validate1 o2) ∧
    (∀ (o2 : Order1) (e : String), validate1 o2 = .error e →
      strictValidate o2 = .error e) := by
  refine ⟨?_, hbase, fun o2 h2 => ?_, fun o2 e he => ?_⟩
  · unfold strictValidate
    rw [hbase, if_pos hceil]
  · unfold strictValidate
    cases hv : validate1 o2 with
    | error e => rfl
    | ok b =>
      have hb := validate1_only_true o2 b hv
      subst hb
      show (if o2.total > 10000 then
          (Except.error "Order total exceeds maximum allowed value" : Except String Bool)
        else .ok true) = .ok true
      rw [if_neg (not_lt.mpr h2)]
  · unfold strictValidate
    rw [he]

/-- C7 witness: the over-the-ceiling demonstration order ORD-004. -/
theorem strictValidate_ceiling_witness :
    strictValidate bigOrd = .error "Order total exceeds maximum allowed value" ∧
    validate1 bigOrd = .ok true :=
  ⟨(strictValidate_ceiling bigOrd rfl (by norm_num [bigOrd, Order1.new])).1,
   (strictValidate_ceiling bigOrd rfl (by norm_num [bigOrd, Order1.new])).2.1⟩

/-- C8: masking the demonstration card number 1234567890123456 renders
exactly ****-****-****-3456; the rendered payment info's card number field
is always the fixed mask followed by the last four characters of the card
number, and therefore depends on nothing but those last four characters. -/
theorem maskCardNumber_spec :
    cardA.maskCardNumber = "****-****-****-3456" ∧
    (∀ p : CreditCardPayment,
      p.getPaymentInfo.cardNumber = "****-****-****-" ++ p.cardNumber.takeRight 4) ∧
    (∀ p q : CreditCardPayment, p.cardNumber.takeRight 4 = q.cardNumber.takeRight 4 →
      p.getPaymentInfo.cardNumber = q.getPaymentInfo.cardNumber) := by
  refine ⟨rfl, fun p => rfl, fun p q h => ?_⟩
  show "****-****-****-" ++ p.cardNumber.takeRight 4 =
    "****-****-****-" ++ q.cardNumber.takeRight 4
  rw [h]

/-- C8 witness: two cards agreeing on their last four digits render the
same masked number. -/
theorem maskCardNumber_spec_witness :
    cardA.getPaymentInfo.cardNumber = cardB.getPaymentInfo.cardNumber :=
  maskCardNumber_spec.2.2 cardA cardB (by decide)

/-- C9: the processed total is the sum of the `amount` field over every
recorded payment, with no status filtering, and it is invariant under
permuting the history. -/
theorem getTotalProcessed_spec :
    (∀ history : List Payment,
      getTotalProcessed history = (history.map Payment.amount).sum) ∧
    (∀ h1 h2 : List Payment, h1.Perm h2 →
      getTotalProcessed h1 = getTotalProcessed h2) := by
  have hsum : ∀ history : List Payment,
      getTotalProcessed history = (history.map Payment.amount).sum := by
    intro history
    unfold getTotalProcessed
    rw [foldl_add_amount]
    exact zero_add _
  exact ⟨hsum, fun h1 h2 hp => by rw [hsum, hsum]; exact (hp.map Payment.amount).sum_eq⟩

/-- C9 witness: the two demonstration payments, in both orders. -/
theorem getTotalProcessed_spec_witness :
    getTotalProcessed [payA, payB] = ([payA, payB].map Payment.amount).sum ∧
    getTotalProcessed [payA, payB] = getTotalProcessed [payB, payA] :=
  ⟨getTotalProcessed_spec.1 [payA, payB],
   getTotalProcessed_spec.2 [payA, payB] [payB, payA] (List.Perm.swap payB payA [])⟩

/-- C10: when the configured validator rejects the freshly built order,
`createOrder` raises that error and leaves the repository untouched — the
rejected order is never saved and `findAll` afterwards returns exactly the
orders stored before the call. -/
theorem createOrder_rejected (v : Order1 → Except String Bool) (repo : Repo)
    (id name : String) (items : List String) (total : ℚ) (e : String)
    (h : v (Order1.new id name items total) = .error e) :
    (createOrder v repo id name items total).2 = repo ∧
    Repo.findAll (createOrder v repo id name items total).2 = Repo.findAll repo ∧
    (createOrder v repo id name items total).1 = .error e := by
  simp only [createOrder]
  rw [h]
  exact ⟨rfl, rfl, rfl⟩

/-- C10 witness: a zero-total order is rejected by the base validator and
a one-order repository is left exactly as it was. -/
theorem createOrder_rejected_witness :
    (createOrder validate1 [validOrd1] "ORD-010" "Pedro Costa" ["Produto D"] 0).2 =
      [validOrd1] ∧
    Repo.findAll (createOrder validate1 [validOrd1] "ORD-010" "Pedro Costa"
      ["Produto D"] 0).2 = Repo.findAll [validOrd1] ∧
    (createOrder validate1 [validOrd1] "ORD-010" "Pedro Costa" ["Produto D"] 0).1 =
      .error "Order total must be greater than zero" :=
  createOrder_rejected validate1 [validOrd1] "ORD-010" "Pedro Costa"
    ["Produto D"] 0 "Order total must be greater than zero" rfl
